import Mathlib

/-!
Verification of the crop-geometry engine of the image_editor repository.

The engine manipulates axis-aligned rectangles `{x, y, width, height}` in a
single coordinate space.  JavaScript numbers are modelled by the rationals ℚ:
every arithmetic operation the engine performs (+, -, *, /, max, min and
comparisons) is exact decimal arithmetic on the inputs the claims quantify
over, so ℚ is a faithful carrier.  The one JavaScript peculiarity that
matters is division by zero (`width / 0` is Infinity or -Infinity, and
`0 / 0` is NaN); the single place it can occur,
`createInstagramCompatibleCrop`, is embedded with an explicit case split
reproducing how those special values flow through the subsequent
comparisons.

Rectangles in the source may arrive with absent fields, which every engine
function immediately normalizes with a zero default (`crop.x ?? 0` and so
on); the embedding therefore works with already-normalized total
rectangles.  Optional *rectangles* (null/undefined in the source) are
modelled by `Option Rect`.  JavaScript truthiness tests on numbers
(`!frameWidth`, `livePixelCrop?.width && ...`) compare against zero.

The App component of the source is an implicit state machine over the React
state cells `source, activePreset, crop, completedCrop, livePixelCrop,
imageFrame`; it is embedded as explicit state passing over `AppState`, one
total function per event handler.
-/

namespace ImageEditorSpec

/-- Axis-aligned rectangle in display coordinates, all fields normalized
to total rational numbers. The cosmetic `unit: px` tag carried by some
source rectangles has no geometric meaning and is omitted. -/
@[ext]
structure Rect where
  x : ℚ
  y : ℚ
  width : ℚ
  height : ℚ
deriving DecidableEq, Repr

/-- Envelope lower bound, `INSTAGRAM_MIN_ASPECT = 4 / 5` in the source. -/
def INSTAGRAM_MIN_ASPECT : ℚ := 4 / 5

/-- Envelope upper bound, `INSTAGRAM_MAX_ASPECT = 1.91` in the source. -/
def INSTAGRAM_MAX_ASPECT : ℚ := 1.91

/-- Boundary tolerance, `EPSILON = 0.001` in the source. -/
def EPSILON : ℚ := 0.001

/-- Recognized compatibility-mode value, `INSTAGRAM_COMPATIBILITY_KEY`. -/
def INSTAGRAM_COMPATIBILITY_KEY : String := "instagram"

/-- Embedding of `clampPixelCropToFrame(crop, frame)`: axis-aligned
intersection of the candidate with the frame, with width/height floored
at zero. -/
def clampPixelCropToFrame (crop frame : Rect) : Rect :=
  let x1 := max frame.x crop.x
  let y1 := max frame.y crop.y
  let x2 := min (frame.x + frame.width) (crop.x + crop.width)
  let y2 := min (frame.y + frame.height) (crop.y + crop.height)
  { x := x1, y := y1, width := max 0 (x2 - x1), height := max 0 (y2 - y1) }

/-- Containment of a rectangle in a frame, in the sense of the data model:
the rectangle is a genuine (nonnegative-size) rectangle lying inside the
frame on both axes. -/
def containedIn (r frame : Rect) : Prop :=
  0 ≤ r.width ∧ 0 ≤ r.height ∧
  frame.x ≤ r.x ∧ frame.y ≤ r.y ∧
  r.x + r.width ≤ frame.x + frame.width ∧
  r.y + r.height ≤ frame.y + frame.height

instance (r frame : Rect) : Decidable (containedIn r frame) := by
  unfold containedIn; infer_instance

/-- Embedding of `createCenteredCropInFrame(frame, aspect)`.  The guard
`!frameWidth || !frameHeight` is the zero test on normalized fields, and
`!aspect` holds when the aspect is null (`none`) or zero. -/
def createCenteredCropInFrame (frame : Rect) (aspect : Option ℚ) : Option Rect :=
  if frame.width = 0 ∨ frame.height = 0 then
    none
  else if aspect.getD 0 = 0 then
    let width := frame.width * 0.6
    let height := frame.height * 0.6
    some { x := frame.x + (frame.width - width) / 2,
           y := frame.y + (frame.height - height) / 2,
           width := width, height := height }
  else
    let a := aspect.getD 0
    let safeArea : ℚ := 0.8
    let width0 := frame.width * safeArea
    let height0 := width0 / a
    if frame.height * safeArea < height0 then
      let height := frame.height * safeArea
      let width := height * a
      some { x := frame.x + (frame.width - width) / 2,
             y := frame.y + (frame.height - height) / 2,
             width := width, height := height }
    else
      some { x := frame.x + (frame.width - width0) / 2,
             y := frame.y + (frame.height - height0) / 2,
             width := width0, height := height0 }

/-- Embedding of `createInstagramCompatibleCrop(frame)`.  When
`frame.height` is nonzero, `imageAspect = width / height` is ordinary
rational arithmetic.  When `frame.height` is zero, JavaScript produces
Infinity (width positive), -Infinity (width negative) or NaN (width zero);
none of these satisfies the envelope test, and only -Infinity satisfies
`imageAspect < INSTAGRAM_MIN_ASPECT`, which the final case split mirrors. -/
def createInstagramCompatibleCrop (frame : Rect) : Rect :=
  if frame.height ≠ 0 then
    let imageAspect := frame.width / frame.height
    if INSTAGRAM_MIN_ASPECT - EPSILON ≤ imageAspect ∧
        imageAspect ≤ INSTAGRAM_MAX_ASPECT + EPSILON then
      { x := frame.x, y := frame.y, width := frame.width, height := frame.height }
    else if imageAspect < INSTAGRAM_MIN_ASPECT then
      let cropHeight := frame.width / INSTAGRAM_MIN_ASPECT
      { x := frame.x, y := frame.y + (frame.height - cropHeight) / 2,
        width := frame.width, height := cropHeight }
    else
      let cropWidth := frame.height * INSTAGRAM_MAX_ASPECT
      { x := frame.x + (frame.width - cropWidth) / 2, y := frame.y,
        width := cropWidth, height := frame.height }
  else if frame.width < 0 then
    let cropHeight := frame.width / INSTAGRAM_MIN_ASPECT
    { x := frame.x, y := frame.y + (frame.height - cropHeight) / 2,
      width := frame.width, height := cropHeight }
  else
    let cropWidth := frame.height * INSTAGRAM_MAX_ASPECT
    { x := frame.x + (frame.width - cropWidth) / 2, y := frame.y,
      width := cropWidth, height := frame.height }

/-- Aspect preset: identifier, display label and optional aspect ratio. -/
structure Preset where
  id : String
  label : String
  aspect : Option ℚ
deriving DecidableEq, Repr

/-- The unconstrained default preset, `ASPECT_PRESETS[0]` in the source. -/
def freePreset : Preset := { id := "free", label := "Свободно", aspect := none }

/-- Embedding of the `ASPECT_PRESETS` catalog. -/
def ASPECT_PRESETS : List Preset :=
  [freePreset,
   { id := "square", label := "Квадрат", aspect := some (1 / 1) },
   { id := "16:9", label := "16:9", aspect := some (16 / 9) },
   { id := "16:10", label := "16:10", aspect := some (16 / 10) },
   { id := "4:3", label := "4:3", aspect := some (4 / 3) },
   { id := "3:4", label := "3:4", aspect := some (3 / 4) }]

/-- Natural size of a loaded image element (`img.width`, `img.height`). -/
structure ImgSize where
  width : ℚ
  height : ℚ
deriving DecidableEq, Repr

/-- The React state cells of the App component that the engine reads and
writes.  The source URL is abstracted to its presence (`source` truthy). -/
structure AppState where
  source : Bool
  activePreset : Preset
  crop : Option Rect
  completedCrop : Option Rect
  livePixelCrop : Option Rect
  imageFrame : Option Rect
deriving DecidableEq, Repr

/-- Initial values of the state cells in the source
(`useState(null)`, `useState(ASPECT_PRESETS[0])`, `useState()`, ...). -/
def initialState : AppState :=
  { source := false, activePreset := freePreset, crop := none,
    completedCrop := none, livePixelCrop := none, imageFrame := none }

/-- Embedding of
`searchParams.get(compatibility)?.toLowerCase() || null`: absent stays
null, and an empty lowercased value collapses to null (JS `||`). -/
def compatibilityMode (raw : Option String) : Option String :=
  match raw with
  | none => none
  | some s => if s.toLower = "" then none else some s.toLower

/-- Embedding of `instagramCompatibilityEnabled`: the processed
compatibility flag equals the recognized key. -/
def instagramCompatibilityEnabled (raw : Option String) : Bool :=
  compatibilityMode raw = some INSTAGRAM_COMPATIBILITY_KEY

/-- JavaScript truthiness filter used by `effectiveCrop`: a rectangle
reference passes only when it is present with nonzero width and height. -/
def truthyRect (r : Option Rect) : Option Rect :=
  match r with
  | some c => if c.width ≠ 0 ∧ c.height ≠ 0 then some c else none
  | none => none

/-- Embedding of the `effectiveCrop` memo: null without a frame of nonzero
width and height; otherwise the live rectangle clamped to the frame when it
passes the truthiness test, else the completed rectangle clamped when it
passes, else null. -/
def effectiveCrop (s : AppState) : Option Rect :=
  match s.imageFrame with
  | none => none
  | some frame =>
    if frame.width = 0 ∨ frame.height = 0 then none
    else
      match truthyRect s.livePixelCrop with
      | some live => some (clampPixelCropToFrame live frame)
      | none =>
        match truthyRect s.completedCrop with
        | some completed => some (clampPixelCropToFrame completed frame)
        | none => none

/-- Embedding of the `currentAspect` memo: null unless the effective
rectangle exists with nonzero width and height. -/
def currentAspect (s : AppState) : Option ℚ :=
  match effectiveCrop s with
  | none => none
  | some c => if c.width = 0 ∨ c.height = 0 then none else some (c.width / c.height)

/-- Embedding of the `instagramCompatible` memo: false without a source or
a truthy current aspect, else the envelope test with tolerance. -/
def instagramCompatible (s : AppState) : Bool :=
  if !s.source then false
  else
    match currentAspect s with
    | none => false
    | some a =>
      if a = 0 then false
      else decide (INSTAGRAM_MIN_ASPECT - EPSILON ≤ a ∧
        a ≤ INSTAGRAM_MAX_ASPECT + EPSILON)

/-- Compatibility report shown to the user, modelled from the
`showCompatibility && (...)` rendering in ImageEditor.jsx: the verdict is
rendered only when the compatibility mode is enabled, otherwise nothing is
reported. -/
def compatibilityReport (showCompatibility : Bool) (verdict : Bool) : Option Bool :=
  if showCompatibility then some verdict else none

/-- Embedding of `disabledSave` from ImageEditor.jsx: saving is disabled
without a source, without a completed rectangle of truthy (nonzero) width
and height, or when either dimension is below the 2-unit threshold. -/
def disabledSave (source : Bool) (completedCrop : Option Rect) : Bool :=
  if !source then true
  else
    match completedCrop with
    | none => true
    | some c =>
      if c.width = 0 ∨ c.height = 0 then true
      else decide (c.width < 2 ∨ c.height < 2)

/-- Embedding of `handleImageLoaded(img, frame)`. -/
def handleImageLoaded (enabled : Bool) (s : AppState) (img : ImgSize)
    (frame : Option Rect) : AppState :=
  let nextFrame := frame.getD { x := 0, y := 0, width := img.width, height := img.height }
  if enabled then
    let nextCrop := createInstagramCompatibleCrop nextFrame
    { s with
      imageFrame := some nextFrame
      activePreset := freePreset
      crop := some nextCrop
      completedCrop := none
      livePixelCrop := some nextCrop }
  else
    match createCenteredCropInFrame nextFrame s.activePreset.aspect with
    | none => { s with imageFrame := some nextFrame }
    | some nextCrop =>
      { s with
        imageFrame := some nextFrame
        crop := some nextCrop
        completedCrop := none
        livePixelCrop := some nextCrop }

/-- Embedding of `handlePresetChange(preset, imageRef, frame)`. -/
def handlePresetChange (s : AppState) (preset : Preset) (imageRef : Option ImgSize)
    (frame : Option Rect) : AppState :=
  let s1 := { s with activePreset := preset }
  let targetFrame := (frame.orElse fun _ => s.imageFrame)
  let fromTarget : Option Rect :=
    match targetFrame with
    | some tf =>
      if tf.width ≠ 0 ∧ tf.height ≠ 0 then createCenteredCropInFrame tf preset.aspect
      else none
    | none => none
  match fromTarget with
  | some nextCrop =>
    { s1 with
      crop := some nextCrop
      completedCrop := none
      livePixelCrop := some nextCrop }
  | none =>
    match imageRef with
    | none => s1
    | some img =>
      if img.width = 0 ∨ img.height = 0 then s1
      else
        let fallbackFrame : Rect :=
          { x := 0, y := 0, width := img.width, height := img.height }
        match createCenteredCropInFrame fallbackFrame preset.aspect with
        | none => s1
        | some nextCrop =>
          { s1 with
            crop := some nextCrop
            completedCrop := none
            livePixelCrop := some nextCrop
            imageFrame := some fallbackFrame }

/-- Embedding of `handleCropChange(pixelCrop, percentCrop, frame)`: the raw
rectangle (clamped when a frame is available) becomes both the working crop
and the live rectangle; the completed rectangle is untouched. -/
def handleCropChange (s : AppState) (pixelCrop : Rect) (percentCrop : Rect)
    (frame : Option Rect) : AppState :=
  let _ := percentCrop
  match frame.orElse fun _ => s.imageFrame with
  | some f =>
    { s with
      crop := some (clampPixelCropToFrame pixelCrop f)
      livePixelCrop := some (clampPixelCropToFrame pixelCrop f)
      imageFrame := some f }
  | none =>
    { s with crop := some pixelCrop, livePixelCrop := some pixelCrop }

/-- Embedding of `handleCropComplete(pixelCrop, frame)`: the clamped
rectangle becomes both the completed and the live rectangle. -/
def handleCropComplete (s : AppState) (pixelCrop : Rect)
    (frame : Option Rect) : AppState :=
  match frame.orElse fun _ => s.imageFrame with
  | some f =>
    { s with
      completedCrop := some (clampPixelCropToFrame pixelCrop f)
      livePixelCrop := some (clampPixelCropToFrame pixelCrop f)
      imageFrame := some f }
  | none =>
    { s with completedCrop := some pixelCrop, livePixelCrop := some pixelCrop }

/-- Embedding of `handleImageSelect(file)`: with a file present, a fresh
source is installed and the completed/live rectangles and frame are
discarded. -/
def handleImageSelect (s : AppState) (file : Bool) : AppState :=
  if !file then s
  else
    { s with
      source := true
      completedCrop := none
      livePixelCrop := none
      imageFrame := none }

/-- Embedding of `handleReset()`: every cell returns to its initial value,
the preset reverting to the unconstrained default. -/
def handleReset (s : AppState) : AppState :=
  let _ := s
  { source := false, crop := none, completedCrop := none,
    livePixelCrop := none, activePreset := freePreset, imageFrame := none }

/-! ## Theorems -/

/-- One axis of clamp idempotence: re-clamping does not move the position. -/
lemma clamp_axis_pos (fx cx : ℚ) : max fx (max fx cx) = max fx cx :=
  max_eq_right (le_max_left _ _)

/-- One axis of clamp idempotence: re-clamping does not change the size. -/
lemma clamp_axis_size (fx fw cx cw : ℚ) :
    max 0 (min (fx + fw) (max fx cx + max 0 (min (fx + fw) (cx + cw) - max fx cx)) -
      max fx (max fx cx)) =
    max 0 (min (fx + fw) (cx + cw) - max fx cx) := by
  rw [clamp_axis_pos]
  set m := max fx cx with hm
  set e := min (fx + fw) (cx + cw) with he
  rcases le_total e m with hle | hle
  · have h1 : max 0 (e - m) = 0 := max_eq_left (by linarith)
    rw [h1, add_zero]
    have h2 : min (fx + fw) m ≤ m := min_le_right _ _
    exact max_eq_left (by linarith)
  · have h1 : max 0 (e - m) = e - m := max_eq_right (by linarith)
    rw [h1]
    have h2 : m + (e - m) = e := by ring
    rw [h2]
    have h3 : min (fx + fw) e = e := min_eq_right (min_le_left _ _)
    rw [h3]
    exact h1

/-- Shared helper: clamping to the same frame twice equals clamping once. -/
lemma clamp_idem (crop frame : Rect) :
    clampPixelCropToFrame (clampPixelCropToFrame crop frame) frame =
      clampPixelCropToFrame crop frame := by
  simp only [clampPixelCropToFrame, Rect.mk.injEq]
  refine ⟨clamp_axis_pos _ _, clamp_axis_pos _ _, ?_, ?_⟩
  · exact clamp_axis_size frame.x frame.width crop.x crop.width
  · exact clamp_axis_size frame.y frame.height crop.y crop.height

/-- C6: for every frame F and candidate rectangle R, clamping is idempotent:
clamp(clamp(R,F), F) = clamp(R,F). -/
theorem clamp_idempotent_claim (crop frame : Rect) :
    clampPixelCropToFrame (clampPixelCropToFrame crop frame) frame =
      clampPixelCropToFrame crop frame :=
  clamp_idem crop frame

/-- C1 counterexample: the candidate {x:20, y:0, w:5, h:5} lies entirely to
the right of the frame {x:0, y:0, w:10, h:10}; the clamp keeps x = 20 with
width 0, so x + width = 20 exceeds the frame right edge 10 and the result is
not contained in the frame, refuting the unconditional containment part of
the claim. -/
theorem clamp_containment_counterexample :
    ¬ containedIn
        (clampPixelCropToFrame ⟨20, 0, 5, 5⟩ ⟨0, 0, 10, 10⟩)
        ⟨0, 0, 10, 10⟩ := by
  norm_num [clampPixelCropToFrame, containedIn, max_def, min_def]

/-- C1 (amended): clamp(R,F) equals the stated axis-aligned intersection
formula and its width/height are never negative; the result is fully
contained in F provided R and F actually overlap on both axes (the
counterexample shows containment fails when the candidate lies entirely
outside the frame: the clamp keeps the candidate-side position); and if R is
already contained in F then clamp(R,F) = R. -/
theorem clamp_spec_amended (crop frame : Rect) :
    clampPixelCropToFrame crop frame =
      { x := max frame.x crop.x,
        y := max frame.y crop.y,
        width := max 0 (min (frame.x + frame.width) (crop.x + crop.width) -
          max frame.x crop.x),
        height := max 0 (min (frame.y + frame.height) (crop.y + crop.height) -
          max frame.y crop.y) } ∧
    0 ≤ (clampPixelCropToFrame crop frame).width ∧
    0 ≤ (clampPixelCropToFrame crop frame).height ∧
    (max frame.x crop.x ≤ min (frame.x + frame.width) (crop.x + crop.width) →
      max frame.y crop.y ≤ min (frame.y + frame.height) (crop.y + crop.height) →
      containedIn (clampPixelCropToFrame crop frame) frame) ∧
    (containedIn crop frame → clampPixelCropToFrame crop frame = crop) := by
  refine ⟨rfl, le_max_left _ _, le_max_left _ _, ?_, ?_⟩
  · intro hx hy
    simp only [clampPixelCropToFrame, containedIn]
    refine ⟨le_max_left _ _, le_max_left _ _, le_max_left _ _, le_max_left _ _, ?_, ?_⟩
    · rw [max_eq_right (a := (0 : ℚ)) (by linarith)]
      have h2 := min_le_left (frame.x + frame.width) (crop.x + crop.width)
      linarith
    · rw [max_eq_right (a := (0 : ℚ)) (by linarith)]
      have h2 := min_le_left (frame.y + frame.height) (crop.y + crop.height)
      linarith
  · rintro ⟨hw, hh, hx, hy, hxw, hyh⟩
    ext
    · simp only [clampPixelCropToFrame]
      exact max_eq_right hx
    · simp only [clampPixelCropToFrame]
      exact max_eq_right hy
    · simp only [clampPixelCropToFrame]
      rw [max_eq_right hx, min_eq_right hxw, add_sub_cancel_left]
      exact max_eq_right hw
    · simp only [clampPixelCropToFrame]
      rw [max_eq_right hy, min_eq_right hyh, add_sub_cancel_left]
      exact max_eq_right hh

/-- C1 witness: the amended theorem applied at the contained candidate
{x:2, y:2, w:4, h:4} inside the frame {x:0, y:0, w:10, h:10}. -/
theorem clamp_spec_amended_witness :
    containedIn (clampPixelCropToFrame ⟨2, 2, 4, 4⟩ ⟨0, 0, 10, 10⟩) ⟨0, 0, 10, 10⟩ ∧
    clampPixelCropToFrame ⟨2, 2, 4, 4⟩ ⟨0, 0, 10, 10⟩ = ⟨2, 2, 4, 4⟩ := by
  have h := clamp_spec_amended ⟨2, 2, 4, 4⟩ ⟨0, 0, 10, 10⟩
  exact ⟨h.2.2.2.1 (by norm_num [max_def, min_def]) (by norm_num [max_def, min_def]),
    h.2.2.2.2 (by norm_num [containedIn])⟩

/-- C4: for frames with positive width and height, the unconstrained
centered crop covers 60% of the frame on each axis and is centered; a
positive constrained aspect starts from width 80% of the frame width with
height width/aspect, switching to height 80% of the frame height with width
height*aspect when that height exceeds 80% of the frame height, centered
either way; in particular the frame 1000×500 with aspect 1 yields the
square 400×400 at (300, 50). -/
theorem createCenteredCropInFrame_spec (frame : Rect)
    (hw : 0 < frame.width) (hh : 0 < frame.height) :
    (createCenteredCropInFrame frame none =
      some { x := frame.x + (frame.width - frame.width * 0.6) / 2,
             y := frame.y + (frame.height - frame.height * 0.6) / 2,
             width := frame.width * 0.6,
             height := frame.height * 0.6 }) ∧
    (∀ a : ℚ, 0 < a →
      (frame.width * 0.8 / a ≤ frame.height * 0.8 →
        createCenteredCropInFrame frame (some a) =
          some { x := frame.x + (frame.width - frame.width * 0.8) / 2,
                 y := frame.y + (frame.height - frame.width * 0.8 / a) / 2,
                 width := frame.width * 0.8,
                 height := frame.width * 0.8 / a }) ∧
      (frame.height * 0.8 < frame.width * 0.8 / a →
        createCenteredCropInFrame frame (some a) =
          some { x := frame.x + (frame.width - frame.height * 0.8 * a) / 2,
                 y := frame.y + (frame.height - frame.height * 0.8) / 2,
                 width := frame.height * 0.8 * a,
                 height := frame.height * 0.8 })) ∧
    createCenteredCropInFrame ⟨0, 0, 1000, 500⟩ (some 1) =
      some ⟨300, 50, 400, 400⟩ := by
  have hwz : ¬(frame.width = 0 ∨ frame.height = 0) := by
    push_neg
    exact ⟨ne_of_gt hw, ne_of_gt hh⟩
  refine ⟨?_, ?_, ?_⟩
  · simp only [createCenteredCropInFrame, Option.getD_none]
    rw [if_neg hwz, if_pos trivial]
  · intro a ha
    constructor
    · intro hle
      simp only [createCenteredCropInFrame, Option.getD_some]
      rw [if_neg hwz, if_neg (ne_of_gt ha), if_neg (not_lt.mpr hle)]
    · intro hlt
      simp only [createCenteredCropInFrame, Option.getD_some]
      rw [if_neg hwz, if_neg (ne_of_gt ha), if_pos hlt]
  · norm_num [createCenteredCropInFrame, Rect.mk.injEq]

/-- C4 witness: the theorem applied at the frame 1000×500 with aspect 1,
producing the spec test vector, and at aspect 2 where the width-first
branch applies. -/
theorem createCenteredCropInFrame_spec_witness :
    createCenteredCropInFrame ⟨0, 0, 1000, 500⟩ (some 1) =
      some ⟨300, 50, 400, 400⟩ ∧
    createCenteredCropInFrame ⟨0, 0, 1000, 500⟩ (some 2) =
      some ⟨100, 50, 800, 400⟩ ∧
    createCenteredCropInFrame ⟨0, 0, 200, 100⟩ none =
      some ⟨40, 20, 120, 60⟩ := by
  have h := createCenteredCropInFrame_spec ⟨0, 0, 1000, 500⟩ (by norm_num) (by norm_num)
  have h2 := createCenteredCropInFrame_spec ⟨0, 0, 200, 100⟩ (by norm_num) (by norm_num)
  refine ⟨h.2.2, ?_, ?_⟩
  · have hb := (h.2.1 2 (by norm_num)).1 (by norm_num)
    rw [hb]
    norm_num [Rect.mk.injEq]
  · rw [h2.1]
    norm_num [Rect.mk.injEq]

/-- C2: for frames with positive width and height, the compatibility
generator returns the frame unchanged when the image aspect lies in the
tolerance-relaxed envelope; below it (reading the cases sequentially, so
below min - epsilon), it keeps x and width and shrinks the height to
width/min, recentering vertically; above it, it keeps y and height and
shrinks the width to height*max, recentering horizontally.  The result is
always contained in the frame, its aspect satisfies the relaxed envelope,
and it is the largest rectangle (by area) within the frame whose aspect
satisfies the envelope. -/
theorem createInstagramCompatibleCrop_spec (frame : Rect)
    (hw : 0 < frame.width) (hh : 0 < frame.height) :
    (INSTAGRAM_MIN_ASPECT - EPSILON ≤ frame.width / frame.height ∧
        frame.width / frame.height ≤ INSTAGRAM_MAX_ASPECT + EPSILON →
      createInstagramCompatibleCrop frame = frame) ∧
    (frame.width / frame.height < INSTAGRAM_MIN_ASPECT - EPSILON →
      createInstagramCompatibleCrop frame =
        { x := frame.x,
          y := frame.y + (frame.height - frame.width / INSTAGRAM_MIN_ASPECT) / 2,
          width := frame.width,
          height := frame.width / INSTAGRAM_MIN_ASPECT }) ∧
    (INSTAGRAM_MAX_ASPECT + EPSILON < frame.width / frame.height →
      createInstagramCompatibleCrop frame =
        { x := frame.x + (frame.width - frame.height * INSTAGRAM_MAX_ASPECT) / 2,
          y := frame.y,
          width := frame.height * INSTAGRAM_MAX_ASPECT,
          height := frame.height }) ∧
    containedIn (createInstagramCompatibleCrop frame) frame ∧
    (INSTAGRAM_MIN_ASPECT - EPSILON ≤
        (createInstagramCompatibleCrop frame).width /
          (createInstagramCompatibleCrop frame).height ∧
      (createInstagramCompatibleCrop frame).width /
          (createInstagramCompatibleCrop frame).height ≤
        INSTAGRAM_MAX_ASPECT + EPSILON) ∧
    (∀ r : Rect, containedIn r frame →
      INSTAGRAM_MIN_ASPECT * r.height ≤ r.width →
      r.width ≤ INSTAGRAM_MAX_ASPECT * r.height →
      r.width * r.height ≤
        (createInstagramCompatibleCrop frame).width *
          (createInstagramCompatibleCrop frame).height) := by
  have hfh : frame.height ≠ 0 := ne_of_gt hh
  have hfw : frame.width ≠ 0 := ne_of_gt hw
  have hM1 : (0 : ℚ) < INSTAGRAM_MIN_ASPECT := by norm_num [INSTAGRAM_MIN_ASPECT]
  have hM2 : (0 : ℚ) < INSTAGRAM_MAX_ASPECT := by norm_num [INSTAGRAM_MAX_ASPECT]
  have hE1 : (0 : ℚ) < EPSILON := by norm_num [EPSILON]
  have hM3 : INSTAGRAM_MIN_ASPECT < INSTAGRAM_MAX_ASPECT := by
    norm_num [INSTAGRAM_MIN_ASPECT, INSTAGRAM_MAX_ASPECT]
  by_cases hE : INSTAGRAM_MIN_ASPECT - EPSILON ≤ frame.width / frame.height ∧
      frame.width / frame.height ≤ INSTAGRAM_MAX_ASPECT + EPSILON
  · have hres : createInstagramCompatibleCrop frame = frame := by
      simp only [createInstagramCompatibleCrop]
      rw [if_pos hfh, if_pos hE]
    refine ⟨fun _ => hres, ?_, ?_, ?_, ?_, ?_⟩
    · intro h2
      exact absurd hE.1 (not_le.mpr h2)
    · intro h3
      exact absurd hE.2 (not_le.mpr h3)
    · rw [hres]
      exact ⟨hw.le, hh.le, le_refl _, le_refl _, le_refl _, le_refl _⟩
    · rw [hres]
      exact hE
    · rw [hres]
      intro r hr hmin hmax
      obtain ⟨h0w, h0h, hx, hy, hxw, hyh⟩ := hr
      have h1 : r.width ≤ frame.width := by linarith
      have h2 : r.height ≤ frame.height := by linarith
      exact mul_le_mul h1 h2 h0h hw.le
  · by_cases hT : frame.width / frame.height < INSTAGRAM_MIN_ASPECT
    · have hres : createInstagramCompatibleCrop frame =
          { x := frame.x,
            y := frame.y + (frame.height - frame.width / INSTAGRAM_MIN_ASPECT) / 2,
            width := frame.width,
            height := frame.width / INSTAGRAM_MIN_ASPECT } := by
        simp only [createInstagramCompatibleCrop]
        rw [if_pos hfh, if_neg hE, if_pos hT]
      have hch0 : 0 < frame.width / INSTAGRAM_MIN_ASPECT := div_pos hw hM1
      have hchlt : frame.width / INSTAGRAM_MIN_ASPECT < frame.height := by
        rw [div_lt_iff₀ hM1, mul_comm]
        exact (div_lt_iff₀ hh).mp hT
      have haspect : frame.width / (frame.width / INSTAGRAM_MIN_ASPECT) =
          INSTAGRAM_MIN_ASPECT := by
        rw [div_div_eq_mul_div, mul_comm, mul_div_assoc, div_self hfw, mul_one]
      refine ⟨?_, fun _ => hres, ?_, ?_, ?_, ?_⟩
      · intro h1
        exact absurd h1 hE
      · intro h3
        exfalso
        linarith
      · rw [hres]
        simp only [containedIn]
        refine ⟨hw.le, hch0.le, le_refl _, by linarith, le_refl _, by linarith⟩
      · rw [hres]
        show INSTAGRAM_MIN_ASPECT - EPSILON ≤
            frame.width / (frame.width / INSTAGRAM_MIN_ASPECT) ∧
          frame.width / (frame.width / INSTAGRAM_MIN_ASPECT) ≤
            INSTAGRAM_MAX_ASPECT + EPSILON
        rw [haspect]
        constructor
        · linarith
        · linarith
      · rw [hres]
        intro r hr hmin hmax
        obtain ⟨h0w, h0h, hx, hy, hxw, hyh⟩ := hr
        show r.width * r.height ≤
          frame.width * (frame.width / INSTAGRAM_MIN_ASPECT)
        have h1 : r.width ≤ frame.width := by linarith
        have h2 : r.height ≤ frame.width / INSTAGRAM_MIN_ASPECT := by
          rw [le_div_iff₀ hM1]
          calc r.height * INSTAGRAM_MIN_ASPECT
              = INSTAGRAM_MIN_ASPECT * r.height := by ring
            _ ≤ r.width := hmin
            _ ≤ frame.width := h1
        exact mul_le_mul h1 h2 h0h hw.le
    · push_neg at hT
      have hW : INSTAGRAM_MAX_ASPECT + EPSILON < frame.width / frame.height := by
        by_contra hcon
        push_neg at hcon
        exact hE ⟨by linarith, hcon⟩
      have hres : createInstagramCompatibleCrop frame =
          { x := frame.x + (frame.width - frame.height * INSTAGRAM_MAX_ASPECT) / 2,
            y := frame.y,
            width := frame.height * INSTAGRAM_MAX_ASPECT,
            height := frame.height } := by
        simp only [createInstagramCompatibleCrop]
        rw [if_pos hfh, if_neg hE, if_neg (not_lt.mpr hT)]
      have hcw0 : 0 < frame.height * INSTAGRAM_MAX_ASPECT := mul_pos hh hM2
      have hcwlt : frame.height * INSTAGRAM_MAX_ASPECT < frame.width := by
        have h5 := (lt_div_iff₀ hh).mp (by linarith :
          INSTAGRAM_MAX_ASPECT < frame.width / frame.height)
        calc frame.height * INSTAGRAM_MAX_ASPECT
            = INSTAGRAM_MAX_ASPECT * frame.height := mul_comm _ _
          _ < frame.width := h5
      have haspect : frame.height * INSTAGRAM_MAX_ASPECT / frame.height =
          INSTAGRAM_MAX_ASPECT := by
        rw [mul_comm, mul_div_assoc, div_self hfh, mul_one]
      refine ⟨?_, ?_, fun _ => hres, ?_, ?_, ?_⟩
      · intro h1
        exact absurd h1 hE
      · intro h2
        exfalso
        linarith
      · rw [hres]
        simp only [containedIn]
        refine ⟨hcw0.le, hh.le, by linarith, le_refl _, by linarith, le_refl _⟩
      · rw [hres]
        show INSTAGRAM_MIN_ASPECT - EPSILON ≤
            frame.height * INSTAGRAM_MAX_ASPECT / frame.height ∧
          frame.height * INSTAGRAM_MAX_ASPECT / frame.height ≤
            INSTAGRAM_MAX_ASPECT + EPSILON
        rw [haspect]
        constructor
        · linarith
        · linarith
      · rw [hres]
        intro r hr hmin hmax
        obtain ⟨h0w, h0h, hx, hy, hxw, hyh⟩ := hr
        show r.width * r.height ≤
          frame.height * INSTAGRAM_MAX_ASPECT * frame.height
        have h2 : r.height ≤ frame.height := by linarith
        have h1 : r.width ≤ frame.height * INSTAGRAM_MAX_ASPECT := by
          calc r.width ≤ INSTAGRAM_MAX_ASPECT * r.height := hmax
            _ ≤ INSTAGRAM_MAX_ASPECT * frame.height :=
              mul_le_mul_of_nonneg_left h2 hM2.le
            _ = frame.height * INSTAGRAM_MAX_ASPECT := mul_comm _ _
        exact mul_le_mul h1 h2 h0h hcw0.le

/-- C2 witness: the compatibility generator applied to the spec test
vectors: pass-through on the 1000×600 frame, and on the too-tall frame
400×1000 height 400/0.8 = 500 with y offset 250, x and width unchanged. -/
theorem createInstagramCompatibleCrop_spec_witness :
    createInstagramCompatibleCrop ⟨0, 0, 1000, 600⟩ = ⟨0, 0, 1000, 600⟩ ∧
    createInstagramCompatibleCrop ⟨0, 0, 400, 1000⟩ = ⟨0, 250, 400, 500⟩ := by
  constructor
  · exact (createInstagramCompatibleCrop_spec ⟨0, 0, 1000, 600⟩
      (by norm_num) (by norm_num)).1
      (by norm_num [INSTAGRAM_MIN_ASPECT, INSTAGRAM_MAX_ASPECT, EPSILON])
  · have h := (createInstagramCompatibleCrop_spec ⟨0, 0, 400, 1000⟩
      (by norm_num) (by norm_num)).2.1
      (by norm_num [INSTAGRAM_MIN_ASPECT, EPSILON])
    rw [h]
    ext <;> norm_num [INSTAGRAM_MIN_ASPECT]

/-- Degenerate frames make every clamped rectangle zero-width. -/
lemma clamp_width_zero (c frame : Rect) (h : frame.width = 0) :
    (clampPixelCropToFrame c frame).width = 0 := by
  simp only [clampPixelCropToFrame, h, add_zero]
  have h1 : min frame.x (c.x + c.width) ≤ frame.x := min_le_left _ _
  have h2 : frame.x ≤ max frame.x c.x := le_max_left _ _
  exact max_eq_left (by linarith)

/-- Degenerate frames make every clamped rectangle zero-height. -/
lemma clamp_height_zero (c frame : Rect) (h : frame.height = 0) :
    (clampPixelCropToFrame c frame).height = 0 := by
  simp only [clampPixelCropToFrame, h, add_zero]
  have h1 : min frame.y (c.y + c.height) ≤ frame.y := min_le_left _ _
  have h2 : frame.y ≤ max frame.y c.y := le_max_left _ _
  exact max_eq_left (by linarith)

/-- C3 counterexample: on the zero-width frame {x:0, y:0, w:0, h:1000} the
compatibility generator does produce a rectangle ({x:0, y:500, w:0, h:0},
not null), and an image-loaded event in compatibility mode installs it as
the live rectangle, refuting that every generator yields no rectangle on
zero-area frames. -/
theorem zero_frame_generator_counterexample :
    createInstagramCompatibleCrop ⟨0, 0, 0, 1000⟩ =
      { x := 0, y := 500, width := 0, height := 0 } ∧
    (handleImageLoaded true initialState ⟨0, 0⟩
        (some ⟨0, 0, 0, 1000⟩)).livePixelCrop =
      some { x := 0, y := 500, width := 0, height := 0 } := by
  constructor
  · norm_num [createInstagramCompatibleCrop, INSTAGRAM_MIN_ASPECT,
      INSTAGRAM_MAX_ASPECT, EPSILON, Rect.mk.injEq]
  · norm_num [handleImageLoaded, createInstagramCompatibleCrop, initialState,
      INSTAGRAM_MIN_ASPECT, INSTAGRAM_MAX_ASPECT, EPSILON, Rect.mk.injEq]

/-- C3 (amended): on a frame with zero width or height (and nonnegative
dimensions), the centered generator returns null, the compatibility
generator returns a degenerate rectangle with zero width or zero height
rather than null, and downstream export stays disabled: any rectangle
committed against such a frame clamps to zero width or height, so
disabledSave is true. -/
theorem zero_frame_degenerate_spec (frame : Rect)
    (hzero : frame.width = 0 ∨ frame.height = 0)
    (hw : 0 ≤ frame.width) (hh : 0 ≤ frame.height) :
    (∀ aspect : Option ℚ, createCenteredCropInFrame frame aspect = none) ∧
    ((createInstagramCompatibleCrop frame).width = 0 ∨
      (createInstagramCompatibleCrop frame).height = 0) ∧
    (∀ (s : AppState) (pixelCrop : Rect),
      disabledSave (handleCropComplete s pixelCrop (some frame)).source
        ((handleCropComplete s pixelCrop (some frame)).completedCrop) = true) := by
  refine ⟨?_, ?_, ?_⟩
  · intro aspect
    simp only [createCenteredCropInFrame]
    rw [if_pos hzero]
  · by_cases hfh : frame.height = 0
    · right
      simp only [createInstagramCompatibleCrop]
      rw [if_neg (not_not_intro hfh), if_neg (not_lt.mpr hw)]
      exact hfh
    · left
      have hfw : frame.width = 0 := hzero.resolve_right hfh
      simp only [createInstagramCompatibleCrop, hfw, zero_div]
      rw [if_pos hfh, if_neg ?hc1, if_pos ?hc2]
      case hc1 =>
        intro hcon
        have := hcon.1
        norm_num [INSTAGRAM_MIN_ASPECT, EPSILON] at this
      case hc2 =>
        norm_num [INSTAGRAM_MIN_ASPECT]
  · intro s pixelCrop
    have hcc : (handleCropComplete s pixelCrop (some frame)).completedCrop =
        some (clampPixelCropToFrame pixelCrop frame) := by
      simp [handleCropComplete]
    have hsrc : (handleCropComplete s pixelCrop (some frame)).source = s.source := by
      simp [handleCropComplete]
    have hdeg : (clampPixelCropToFrame pixelCrop frame).width = 0 ∨
        (clampPixelCropToFrame pixelCrop frame).height = 0 := by
      rcases hzero with h | h
      · exact Or.inl (clamp_width_zero _ _ h)
      · exact Or.inr (clamp_height_zero _ _ h)
    rw [hcc, hsrc]
    cases hs : s.source
    · simp [disabledSave]
    · simp [disabledSave, hdeg]

/-- C3 witness: the amended theorem applied at the zero-width frame
{x:0, y:0, w:0, h:1000}, an arbitrary candidate rectangle and the initial
state. -/
theorem zero_frame_degenerate_spec_witness :
    createCenteredCropInFrame ⟨0, 0, 0, 1000⟩ none = none ∧
    ((createInstagramCompatibleCrop ⟨0, 0, 0, 1000⟩).width = 0 ∨
      (createInstagramCompatibleCrop ⟨0, 0, 0, 1000⟩).height = 0) ∧
    disabledSave (handleCropComplete initialState ⟨5, 5, 50, 50⟩
        (some ⟨0, 0, 0, 1000⟩)).source
      ((handleCropComplete initialState ⟨5, 5, 50, 50⟩
        (some ⟨0, 0, 0, 1000⟩)).completedCrop) = true := by
  have h := zero_frame_degenerate_spec ⟨0, 0, 0, 1000⟩ (by norm_num)
    (by norm_num) (by norm_num)
  exact ⟨h.1 none, h.2.1, h.2.2 initialState ⟨5, 5, 50, 50⟩⟩

/-- C5: when the compatibility flag is absent or does not resolve to the
recognized instagram key, the rendered compatibility report is always "not
applicable" (nothing is reported), whatever verdict the tracker memo
computed for the current state. -/
theorem compatibility_report_inert (raw : Option String) (s : AppState)
    (h : compatibilityMode raw ≠ some INSTAGRAM_COMPATIBILITY_KEY) :
    compatibilityReport (instagramCompatibilityEnabled raw)
      (instagramCompatible s) = none := by
  have he : instagramCompatibilityEnabled raw = false := decide_eq_false h
  rw [he]
  rfl

/-- C5 witness: with the flag absent and a state whose committed square
crop would be verdict-compatible, the report is still nothing. -/
theorem compatibility_report_inert_witness :
    compatibilityReport (instagramCompatibilityEnabled none)
      (instagramCompatible
        { source := true, activePreset := freePreset, crop := none,
          completedCrop := some ⟨0, 0, 100, 100⟩, livePixelCrop := none,
          imageFrame := some ⟨0, 0, 100, 100⟩ }) = none :=
  compatibility_report_inert none
    { source := true, activePreset := freePreset, crop := none,
      completedCrop := some ⟨0, 0, 100, 100⟩, livePixelCrop := none,
      imageFrame := some ⟨0, 0, 100, 100⟩ }
    (by simp [compatibilityMode])

/-- C7: with a valid frame, the effective rectangle prefers the truthy live
rectangle (clamped to the frame) over the completed one, falls back to the
truthy completed rectangle (clamped), else none; and after a drag commit
followed by a drag update, the effective aspect is that of the clamped
drag-update rectangle while the committed rectangle still holds the
clamped commit rectangle. -/
theorem effective_crop_precedence (s : AppState) (frame : Rect)
    (hf : s.imageFrame = some frame)
    (hfw : frame.width ≠ 0) (hfh : frame.height ≠ 0) :
    (∀ live, s.livePixelCrop = some live → live.width ≠ 0 → live.height ≠ 0 →
      effectiveCrop s = some (clampPixelCropToFrame live frame)) ∧
    (truthyRect s.livePixelCrop = none →
      ∀ completed, s.completedCrop = some completed →
        completed.width ≠ 0 → completed.height ≠ 0 →
        effectiveCrop s = some (clampPixelCropToFrame completed frame)) ∧
    (truthyRect s.livePixelCrop = none → truthyRect s.completedCrop = none →
      effectiveCrop s = none) ∧
    (∀ r1 r2 percent : Rect,
      (clampPixelCropToFrame r2 frame).width ≠ 0 →
      (clampPixelCropToFrame r2 frame).height ≠ 0 →
      currentAspect
        (handleCropChange (handleCropComplete s r1 (some frame)) r2 percent
          (some frame)) =
        some ((clampPixelCropToFrame r2 frame).width /
          (clampPixelCropToFrame r2 frame).height) ∧
      (handleCropChange (handleCropComplete s r1 (some frame)) r2 percent
          (some frame)).completedCrop =
        some (clampPixelCropToFrame r1 frame)) := by
  have hcond : ¬(frame.width = 0 ∨ frame.height = 0) := by
    push_neg
    exact ⟨hfw, hfh⟩
  refine ⟨?_, ?_, ?_, ?_⟩
  · intro live hl hlw hlh
    simp only [effectiveCrop, hf, hl, truthyRect]
    rw [if_neg hcond, if_pos ⟨hlw, hlh⟩]
  · intro htl completed hc hcw hch
    simp only [effectiveCrop, hf]
    rw [if_neg hcond, htl]
    simp only [hc, truthyRect]
    rw [if_pos ⟨hcw, hch⟩]
  · intro htl htc
    simp only [effectiveCrop, hf]
    rw [if_neg hcond, htl, htc]
  · intro r1 r2 percent hw2 hh2
    have e1 : (handleCropChange (handleCropComplete s r1 (some frame)) r2 percent
        (some frame)).livePixelCrop = some (clampPixelCropToFrame r2 frame) := rfl
    have e2 : (handleCropChange (handleCropComplete s r1 (some frame)) r2 percent
        (some frame)).imageFrame = some frame := rfl
    have hEc : effectiveCrop
        (handleCropChange (handleCropComplete s r1 (some frame)) r2 percent
          (some frame)) = some (clampPixelCropToFrame r2 frame) := by
      simp only [effectiveCrop, e1, e2, truthyRect]
      rw [if_neg hcond, if_pos ⟨hw2, hh2⟩]
      show some (clampPixelCropToFrame (clampPixelCropToFrame r2 frame) frame) =
        some (clampPixelCropToFrame r2 frame)
      rw [clamp_idem]
    constructor
    · simp only [currentAspect, hEc]
      rw [if_neg (by push_neg; exact ⟨hw2, hh2⟩)]
    · rfl

/-- C7 witness: the theorem applied at a state with a live rectangle inside
a 100×100 frame, and the commit-then-drag scenario at concrete rectangles. -/
theorem effective_crop_precedence_witness :
    effectiveCrop
      { source := true, activePreset := freePreset, crop := none,
        completedCrop := none, livePixelCrop := some ⟨10, 10, 30, 30⟩,
        imageFrame := some ⟨0, 0, 100, 100⟩ } =
      some (clampPixelCropToFrame ⟨10, 10, 30, 30⟩ ⟨0, 0, 100, 100⟩) ∧
    currentAspect
      (handleCropChange
        (handleCropComplete
          { source := true, activePreset := freePreset, crop := none,
            completedCrop := none, livePixelCrop := some ⟨10, 10, 30, 30⟩,
            imageFrame := some ⟨0, 0, 100, 100⟩ }
          ⟨0, 0, 50, 50⟩ (some ⟨0, 0, 100, 100⟩))
        ⟨10, 10, 40, 20⟩ ⟨0, 0, 0, 0⟩ (some ⟨0, 0, 100, 100⟩)) =
      some ((clampPixelCropToFrame ⟨10, 10, 40, 20⟩ ⟨0, 0, 100, 100⟩).width /
        (clampPixelCropToFrame ⟨10, 10, 40, 20⟩ ⟨0, 0, 100, 100⟩).height) := by
  have h := effective_crop_precedence
    { source := true, activePreset := freePreset, crop := none,
      completedCrop := none, livePixelCrop := some ⟨10, 10, 30, 30⟩,
      imageFrame := some ⟨0, 0, 100, 100⟩ }
    ⟨0, 0, 100, 100⟩ rfl (by norm_num) (by norm_num)
  exact ⟨h.1 ⟨10, 10, 30, 30⟩ rfl (by norm_num) (by norm_num),
    (h.2.2.2 ⟨0, 0, 50, 50⟩ ⟨10, 10, 40, 20⟩ ⟨0, 0, 0, 0⟩
      (by norm_num [clampPixelCropToFrame, max_def, min_def])
      (by norm_num [clampPixelCropToFrame, max_def, min_def])).1⟩

/-- C8: a drag-update event leaves the committed rectangle unchanged, and
likewise the source and the active preset; only the working crop, the live
rectangle and the stored frame are written. -/
theorem handleCropChange_preserves_completed (s : AppState)
    (pixelCrop percentCrop : Rect) (frame : Option Rect) :
    (handleCropChange s pixelCrop percentCrop frame).completedCrop =
      s.completedCrop ∧
    (handleCropChange s pixelCrop percentCrop frame).source = s.source ∧
    (handleCropChange s pixelCrop percentCrop frame).activePreset =
      s.activePreset := by
  obtain ⟨src, pre, cr, cc, lp, imf⟩ := s
  cases frame with
  | some f => exact ⟨rfl, rfl, rfl⟩
  | none =>
    cases imf with
    | some f => exact ⟨rfl, rfl, rfl⟩
    | none => exact ⟨rfl, rfl, rfl⟩

/-- C9: after a reset, the working rectangle is cleared (undefined), the
completed rectangle is null, the live rectangle, frame and source are
discarded, and the active preset reverts to the unconstrained default (the
head of the preset catalog, whose aspect is null). -/
theorem handleReset_spec (s : AppState) :
    (handleReset s).crop = none ∧
    (handleReset s).completedCrop = none ∧
    (handleReset s).livePixelCrop = none ∧
    (handleReset s).imageFrame = none ∧
    (handleReset s).source = false ∧
    (handleReset s).activePreset = freePreset ∧
    ASPECT_PRESETS.head? = some freePreset ∧
    freePreset.aspect = none :=
  ⟨rfl, rfl, rfl, rfl, rfl, rfl, rfl, rfl⟩

/-- C10: without a stored frame, or with a stored frame of zero width or
height, the effective rectangle is none and the effective aspect is null,
whatever live or completed rectangles exist; and a live rectangle with zero
width or height is skipped in the tie-break in favor of a truthy completed
rectangle. -/
theorem effective_crop_degenerate_guard (s : AppState) :
    (s.imageFrame = none → effectiveCrop s = none ∧ currentAspect s = none) ∧
    (∀ frame, s.imageFrame = some frame →
      frame.width = 0 ∨ frame.height = 0 →
      effectiveCrop s = none ∧ currentAspect s = none) ∧
    (∀ frame live completed, s.imageFrame = some frame →
      frame.width ≠ 0 → frame.height ≠ 0 →
      s.livePixelCrop = some live → live.width = 0 ∨ live.height = 0 →
      s.completedCrop = some completed →
      completed.width ≠ 0 → completed.height ≠ 0 →
      effectiveCrop s = some (clampPixelCropToFrame completed frame)) := by
  refine ⟨?_, ?_, ?_⟩
  · intro h
    have he : effectiveCrop s = none := by
      simp only [effectiveCrop, h]
    exact ⟨he, by simp only [currentAspect, he]⟩
  · intro frame hf hz
    have he : effectiveCrop s = none := by
      simp only [effectiveCrop, hf]
      rw [if_pos hz]
    exact ⟨he, by simp only [currentAspect, he]⟩
  · intro frame live completed hf hfw hfh hl hlz hc hcw hch
    have hcond : ¬(frame.width = 0 ∨ frame.height = 0) := by
      push_neg
      exact ⟨hfw, hfh⟩
    have hlcon : ¬(live.width ≠ 0 ∧ live.height ≠ 0) := fun hcon =>
      hlz.elim (fun h1 => hcon.1 h1) (fun h2 => hcon.2 h2)
    simp only [effectiveCrop, hf, hl, hc, truthyRect]
    rw [if_neg hcond, if_neg hlcon, if_pos ⟨hcw, hch⟩]

/-- C10 witness: the theorem applied at the empty initial state (no frame),
and at a state with a zero-width live rectangle and a truthy completed one
inside a 100×100 frame. -/
theorem effective_crop_degenerate_guard_witness :
    (effectiveCrop initialState = none ∧ currentAspect initialState = none) ∧
    effectiveCrop
      { source := true, activePreset := freePreset, crop := none,
        completedCrop := some ⟨10, 10, 20, 20⟩,
        livePixelCrop := some ⟨5, 5, 0, 10⟩,
        imageFrame := some ⟨0, 0, 100, 100⟩ } =
      some (clampPixelCropToFrame ⟨10, 10, 20, 20⟩ ⟨0, 0, 100, 100⟩) := by
  refine ⟨(effective_crop_degenerate_guard initialState).1 rfl, ?_⟩
  exact (effective_crop_degenerate_guard
    { source := true, activePreset := freePreset, crop := none,
      completedCrop := some ⟨10, 10, 20, 20⟩,
      livePixelCrop := some ⟨5, 5, 0, 10⟩,
      imageFrame := some ⟨0, 0, 100, 100⟩ }).2.2
    ⟨0, 0, 100, 100⟩ ⟨5, 5, 0, 10⟩ ⟨10, 10, 20, 20⟩ rfl (by norm_num)
    (by norm_num) rfl (by norm_num) rfl (by norm_num) (by norm_num)

end ImageEditorSpec
